import Mathlib

/-!
Shallow embedding of the IP allow-list access gate found in the root route
module of this repository. The repository holds three near-duplicate
variants of the gate:

* `src/app/root.tsx` (namespace `RootTsx`): `isAllowedIp(requestIp, allowedIp)`
  with a loopback/localhost bypass; the allow-list comes from
  `context.env.ALLOWED_IP`; the check is skipped when that value is falsy.
* `src/unnamed/part_000` (namespace `Part000`): `isAllowedIp(requestIp)` with a
  hardcoded allow-list `89.76.169.41` and no loopback bypass; same address
  resolution as `RootTsx`.
* `src/unnamed/part_001` (namespace `Part001`): no `cf-connecting-ip` lookup,
  no `.trim()` on the first forwarded-for entry, the environment value
  defaults to `127.0.0.1` when falsy, and the success payload carries no
  address.

Headers are modelled as three optional strings (`none` = header absent,
`some ""` = header present but empty). JavaScript string falsiness
(`null`/`undefined`/`""` are falsy) is modelled by `truthy`, `jsOr` and
`jsGetD`. JavaScript `s.split(',')` and `s.trim()` are modelled by
structural recursion on the character list so that every definition is
kernel-executable.
-/

/-- JavaScript truthiness of a nullable string: `null`, `undefined` and the
empty string are falsy, every other string is truthy. -/
def truthy : Option String → Bool
  | some s => s ≠ ""
  | none => false

/-- JavaScript `a || b` on nullable strings: returns `a` when `a` is truthy,
otherwise `b`. -/
def jsOr (a b : Option String) : Option String :=
  match a with
  | some s => if s = "" then b else some s
  | none => b

/-- JavaScript `a || d` where the right operand is a (truthy) string literal:
returns the string held by `a` when truthy, otherwise `d`. -/
def jsGetD (a : Option String) (d : String) : String :=
  match a with
  | some s => if s = "" then d else s
  | none => d

/-- Splitting a character list at every comma, accumulating the current
piece in reverse; mirrors the semantics of JavaScript `String.split(',')`
(the result is never empty; an empty string yields `[""]`). -/
def splitCommaAux : List Char → List Char → List String
  | [], acc => [String.mk acc.reverse]
  | c :: rest, acc =>
    if c = ',' then String.mk acc.reverse :: splitCommaAux rest []
    else splitCommaAux rest (c :: acc)

/-- JavaScript `s.split(',')`. -/
def jsSplitComma (s : String) : List String := splitCommaAux s.toList []

/-- JavaScript `s.trim()`: removes whitespace from both ends. -/
def jsTrim (s : String) : String :=
  String.mk (((s.toList.dropWhile Char.isWhitespace).reverse.dropWhile
    Char.isWhitespace).reverse)

/-- The three request headers the gate reads; `none` models an absent
header, `some v` a header present with value `v`. -/
structure Headers where
  cfConnectingIp : Option String
  xForwardedFor : Option String
  xRealIp : Option String
deriving DecidableEq

/-- Outcome of a loader invocation: either the JSON success payload
(`ok : true` plus, in the variants that include it, the resolved address)
or a denial response with an HTTP status, the fixed error message, and the
diagnostic fields that the particular variant includes in the body. -/
inductive LoaderResult where
  | ok (ip : Option String)
  | denied (status : Nat) (error : String) (requestIp : Option String)
      (allowedIp : Option String)
deriving DecidableEq

/-- Whether a loader outcome lets the request proceed. -/
def LoaderResult.isAllowed : LoaderResult → Bool
  | .ok _ => true
  | .denied _ _ _ _ => false

namespace RootTsx

/-- From src/app/root.tsx: allow loopback or the literal string
`localhost` always, otherwise require exact equality with the allow-list
value. -/
def isAllowedIp (requestIp : String) (allowedIp : String) : Bool :=
  if requestIp = "127.0.0.1" || requestIp = "localhost" then true
  else requestIp = allowedIp

/-- From src/app/root.tsx, the `requestIp` computation of the loader:
`(cf-connecting-ip || x-forwarded-for)?.split(',')[0].trim() || x-real-ip
|| '127.0.0.1'`. -/
def resolveRequestIp (h : Headers) : String :=
  let forwardedFor := jsOr h.cfConnectingIp h.xForwardedFor
  jsGetD (jsOr (forwardedFor.map fun s => jsTrim ((jsSplitComma s).headD ""))
    h.xRealIp) "127.0.0.1"

/-- From src/app/root.tsx: the loader throws a 403 JSON response carrying
the error message, the request address and the allow-list value when the
environment value is truthy and the check fails, and otherwise returns
`{ ok: true, ip: requestIp }`. -/
def loader (h : Headers) (env : Option String) : LoaderResult :=
  let requestIp := resolveRequestIp h
  let allowedIp := env
  if truthy allowedIp && !(isAllowedIp requestIp (allowedIp.getD "")) then
    .denied 403 "Access denied: Unauthorized IP address" (some requestIp)
      allowedIp
  else
    .ok (some requestIp)

end RootTsx

namespace Part000

/-- From src/unnamed/part_000: the allow-list value is hardcoded and there
is no loopback bypass. -/
def isAllowedIp (requestIp : String) : Bool :=
  let allowedIp := "89.76.169.41"
  requestIp = allowedIp

/-- From src/unnamed/part_000, the `requestIp` computation (identical text
to the one in src/app/root.tsx). -/
def resolveRequestIp (h : Headers) : String :=
  let forwardedFor := jsOr h.cfConnectingIp h.xForwardedFor
  jsGetD (jsOr (forwardedFor.map fun s => jsTrim ((jsSplitComma s).headD ""))
    h.xRealIp) "127.0.0.1"

/-- From src/unnamed/part_000: a 403 JSON response with the error message
and the request address when the check fails, `{ ok: true, ip: requestIp }`
otherwise. The denial body has no allow-list field. -/
def loader (h : Headers) : LoaderResult :=
  let requestIp := resolveRequestIp h
  if !(isAllowedIp requestIp) then
    .denied 403 "Access denied: Unauthorized IP address" (some requestIp) none
  else
    .ok (some requestIp)

end Part000

namespace Part001

/-- From src/unnamed/part_001, the `ip` computation of the loader:
`x-forwarded-for?.split(',')[0] || x-real-ip || '127.0.0.1'` — the
`cf-connecting-ip` header is never read and the first entry is not
trimmed. -/
def resolveRequestIp (h : Headers) : String :=
  jsGetD (jsOr (h.xForwardedFor.map fun s => (jsSplitComma s).headD "")
    h.xRealIp) "127.0.0.1"

/-- From src/unnamed/part_001: the allow-list value defaults to
`127.0.0.1` when the environment value is falsy; deny unless the address
equals the allow-list value or the loopback address; the denial body has
only the error message and the success payload has no address field. -/
def loader (h : Headers) (env : Option String) : LoaderResult :=
  let ip := resolveRequestIp h
  let allowedIp := jsGetD env "127.0.0.1"
  if ip ≠ allowedIp && ip ≠ "127.0.0.1" then
    .denied 403 "Access denied: Unauthorized IP address" none none
  else
    .ok none

end Part001

/-- A falsy nullable string defaults: JavaScript `a || d` yields `d` when
`a` is `null`, `undefined` or empty. -/
theorem jsGetD_of_falsy (a : Option String) (d : String) (ha : truthy a = false) :
    jsGetD a d = d := by
  cases a with
  | none => rfl
  | some s =>
    simp only [truthy, decide_eq_false_iff_not, not_not] at ha
    simp [jsGetD, ha]

/-- The allow-list check of src/app/root.tsx accepts an address that equals
the allow-list value, whatever that value is. -/
theorem RootTsx.isAllowedIp_self (x : String) : RootTsx.isAllowedIp x x = true := by
  unfold RootTsx.isAllowedIp
  split
  · rfl
  · simp

/-- C1 counterexample: the part_001 loader, with the allow-list environment
value absent and header `x-forwarded-for: 203.0.113.9`, denies the request,
refuting the claim that an unconfigured allow-list always yields Allowed. -/
theorem c1_counterexample :
    (Part001.loader ⟨none, some "203.0.113.9", none⟩ none).isAllowed = false := by
  decide

/-- C1 amended: with no allow-list configured (absent or empty environment
value), the src/app/root.tsx loader allows every request regardless of the
resolved address, while the part_001 loader defaults the allow-list to the
loopback address and then allows exactly the requests whose resolved
address is the loopback address. -/
theorem c1_fail_open (h h2 : Headers) (env : Option String)
    (henv : truthy env = false) :
    (RootTsx.loader h env).isAllowed = true ∧
      ((Part001.loader h2 env).isAllowed = true ↔
        Part001.resolveRequestIp h2 = "127.0.0.1") := by
  constructor
  · simp [RootTsx.loader, henv, LoaderResult.isAllowed]
  · by_cases hip : Part001.resolveRequestIp h2 = "127.0.0.1"
    · simp [Part001.loader, jsGetD_of_falsy env _ henv, hip, LoaderResult.isAllowed]
    · simp [Part001.loader, jsGetD_of_falsy env _ henv, hip, LoaderResult.isAllowed]

/-- C1 witness: the amended statement at the concrete headers of the spec
example and at headerless input, with the environment value absent. -/
theorem c1_fail_open_witness :
    (RootTsx.loader ⟨none, some "203.0.113.9", none⟩ none).isAllowed = true ∧
      ((Part001.loader ⟨none, none, none⟩ none).isAllowed = true ↔
        Part001.resolveRequestIp ⟨none, none, none⟩ = "127.0.0.1") :=
  c1_fail_open ⟨none, some "203.0.113.9", none⟩ ⟨none, none, none⟩ none (by decide)

/-- C2 counterexample: the part_000 loader, whose hardcoded allow-list is
`89.76.169.41`, denies a request with no headers even though the resolved
address is the loopback address `127.0.0.1`, refuting the claimed
unconditional loopback bypass. -/
theorem c2_counterexample :
    Part000.resolveRequestIp ⟨none, none, none⟩ = "127.0.0.1" ∧
      (Part000.loader ⟨none, none, none⟩).isAllowed = false := by
  decide

/-- C2 amended: a request resolving to the loopback address is always
allowed by the src/app/root.tsx loader, whatever allow-list value is
configured, but is denied by the part_000 loader, whose check has no
loopback bypass and whose hardcoded allow-list differs from loopback. -/
theorem c2_loopback (h h2 : Headers) (env : Option String)
    (hres : RootTsx.resolveRequestIp h = "127.0.0.1")
    (hres2 : Part000.resolveRequestIp h2 = "127.0.0.1") :
    (RootTsx.loader h env).isAllowed = true ∧
      (Part000.loader h2).isAllowed = false := by
  constructor
  · simp [RootTsx.loader, hres, RootTsx.isAllowedIp, LoaderResult.isAllowed]
  · simp [Part000.loader, hres2, Part000.isAllowedIp, LoaderResult.isAllowed]

/-- C2 witness: the amended statement at the headerless request of the spec
example, with allow-list value `89.76.169.41` configured. -/
theorem c2_loopback_witness :
    (RootTsx.loader ⟨none, none, none⟩ (some "89.76.169.41")).isAllowed = true ∧
      (Part000.loader ⟨none, none, none⟩).isAllowed = false :=
  c2_loopback ⟨none, none, none⟩ ⟨none, none, none⟩ (some "89.76.169.41")
    (by decide) (by decide)

/-- C3 counterexample: with allow-list `89.76.169.41` configured and header
`x-forwarded-for: localhost`, the resolved address `localhost` differs from
the allow-list value and from the loopback address, yet the
src/app/root.tsx loader allows the request, refuting the claimed denial. -/
theorem c3_counterexample :
    RootTsx.resolveRequestIp ⟨none, some "localhost", none⟩ = "localhost" ∧
      (RootTsx.loader ⟨none, some "localhost", none⟩
        (some "89.76.169.41")).isAllowed = true := by
  decide

/-- C3 amended: when a non-empty allow-list value is configured and the
resolved address differs from it, from the loopback address, and (in the
src/app/root.tsx variant) from the literal string `localhost`, the loader
denies with a 403 carrying the fixed message "Access denied: Unauthorized
IP address"; likewise the part_001 loader, which needs no `localhost`
exclusion. -/
theorem c3_denied (h h2 : Headers) (a : String) (ha : a ≠ "")
    (h1 : RootTsx.resolveRequestIp h ≠ a)
    (h2a : RootTsx.resolveRequestIp h ≠ "127.0.0.1")
    (h3 : RootTsx.resolveRequestIp h ≠ "localhost")
    (h4 : Part001.resolveRequestIp h2 ≠ a)
    (h5 : Part001.resolveRequestIp h2 ≠ "127.0.0.1") :
    RootTsx.loader h (some a) =
      .denied 403 "Access denied: Unauthorized IP address"
        (some (RootTsx.resolveRequestIp h)) (some a) ∧
    Part001.loader h2 (some a) =
      .denied 403 "Access denied: Unauthorized IP address" none none := by
  constructor
  · simp [RootTsx.loader, RootTsx.isAllowedIp, truthy, ha, h1, h2a, h3]
  · simp [Part001.loader, jsGetD, ha, h4, h5]

/-- C3 witness: the amended statement at the spec's denial example,
allow-list `89.76.169.41` and header `x-forwarded-for: 1.2.3.4, 5.6.7.8`. -/
theorem c3_denied_witness :
    RootTsx.loader ⟨none, some "1.2.3.4, 5.6.7.8", none⟩ (some "89.76.169.41") =
      .denied 403 "Access denied: Unauthorized IP address"
        (some (RootTsx.resolveRequestIp ⟨none, some "1.2.3.4, 5.6.7.8", none⟩))
        (some "89.76.169.41") ∧
    Part001.loader ⟨none, some "1.2.3.4, 5.6.7.8", none⟩ (some "89.76.169.41") =
      .denied 403 "Access denied: Unauthorized IP address" none none :=
  c3_denied ⟨none, some "1.2.3.4, 5.6.7.8", none⟩
    ⟨none, some "1.2.3.4, 5.6.7.8", none⟩ "89.76.169.41"
    (by decide) (by decide) (by decide) (by decide) (by decide) (by decide)

/-- C4 confirmed: when the resolved address equals the configured
allow-list value exactly (plain string equality), the src/app/root.tsx
loader allows and its payload carries that address; likewise the part_000
loader for its hardcoded allow-list value `89.76.169.41`. -/
theorem c4_exact_match (h h2 : Headers) (a : String)
    (e1 : RootTsx.resolveRequestIp h = a)
    (e2 : Part000.resolveRequestIp h2 = "89.76.169.41") :
    RootTsx.loader h (some a) = .ok (some a) ∧
      Part000.loader h2 = .ok (some "89.76.169.41") := by
  constructor
  · simp [RootTsx.loader, e1, RootTsx.isAllowedIp_self]
  · simp [Part000.loader, e2, Part000.isAllowedIp]

/-- C4 witness: the spec example, header `cf-connecting-ip: 89.76.169.41`
against allow-list value `89.76.169.41` in both variants. -/
theorem c4_exact_match_witness :
    RootTsx.loader ⟨some "89.76.169.41", none, none⟩ (some "89.76.169.41") =
      .ok (some "89.76.169.41") ∧
    Part000.loader ⟨some "89.76.169.41", none, none⟩ =
      .ok (some "89.76.169.41") :=
  c4_exact_match ⟨some "89.76.169.41", none, none⟩
    ⟨some "89.76.169.41", none, none⟩ "89.76.169.41" (by decide) (by decide)

/-- C5 counterexample: the part_001 loader resolves the address from
`x-forwarded-for` even when `cf-connecting-ip` is present and non-empty
(it never reads the edge header), refuting the claimed precedence. -/
theorem c5_counterexample :
    Part001.resolveRequestIp ⟨some "1.1.1.1", some "2.2.2.2", none⟩ = "2.2.2.2" := by
  decide

/-- C5 amended: in src/app/root.tsx, when `cf-connecting-ip` is present,
non-empty, and a single clean token (its first comma entry trims to
itself), resolution returns its value whatever `x-forwarded-for` holds; in
part_001, `cf-connecting-ip` is ignored entirely and resolution coincides
with what it would be were that header absent. -/
theorem c5_precedence (cf : String) (xf r : Option String) (hcf : cf ≠ "")
    (hclean : jsTrim ((jsSplitComma cf).headD "") = cf) :
    RootTsx.resolveRequestIp ⟨some cf, xf, r⟩ = cf ∧
      Part001.resolveRequestIp ⟨some cf, xf, r⟩ =
        Part001.resolveRequestIp ⟨none, xf, r⟩ := by
  refine ⟨?_, rfl⟩
  show jsGetD (jsOr ((jsOr (some cf) xf).map fun s =>
    jsTrim ((jsSplitComma s).headD "")) r) "127.0.0.1" = cf
  have e1 : jsOr (some cf) xf = some cf := by simp [jsOr, hcf]
  rw [e1, Option.map_some', hclean]
  simp [jsOr, jsGetD, hcf]

/-- C5 witness: the spec example, `cf-connecting-ip: 1.1.1.1` together with
`x-forwarded-for: 2.2.2.2`. -/
theorem c5_precedence_witness :
    RootTsx.resolveRequestIp ⟨some "1.1.1.1", some "2.2.2.2", none⟩ = "1.1.1.1" ∧
      Part001.resolveRequestIp ⟨some "1.1.1.1", some "2.2.2.2", none⟩ =
        Part001.resolveRequestIp ⟨none, some "2.2.2.2", none⟩ :=
  c5_precedence "1.1.1.1" (some "2.2.2.2") none (by decide) (by decide)

/-- C6 counterexample: on header `x-forwarded-for: " 1.2.3.4 , 5.6.7.8"`,
the part_001 loader resolves to the untrimmed first entry `" 1.2.3.4 "`,
whitespace included, refuting the claim that the first comma entry is
trimmed before use. -/
theorem c6_counterexample :
    Part001.resolveRequestIp ⟨none, some " 1.2.3.4 , 5.6.7.8", none⟩ =
      " 1.2.3.4 " ∧ (" 1.2.3.4 " : String) ≠ "1.2.3.4" := by
  decide

/-- C6 amended: with `cf-connecting-ip` absent, src/app/root.tsx resolves a
comma-separated `x-forwarded-for` chain to its first entry with surrounding
whitespace trimmed (whenever that trimmed entry is non-empty), while
part_001 resolves to the first entry without any trimming. -/
theorem c6_first_entry (s : String) (cf r : Option String)
    (h1 : jsTrim ((jsSplitComma s).headD "") ≠ "")
    (h2 : (jsSplitComma s).headD "" ≠ "") :
    RootTsx.resolveRequestIp ⟨none, some s, r⟩ =
        jsTrim ((jsSplitComma s).headD "") ∧
      Part001.resolveRequestIp ⟨cf, some s, r⟩ = (jsSplitComma s).headD "" := by
  constructor
  · show jsGetD (jsOr (some (jsTrim ((jsSplitComma s).headD ""))) r)
      "127.0.0.1" = jsTrim ((jsSplitComma s).headD "")
    revert h1
    generalize jsTrim ((jsSplitComma s).headD "") = t
    intro h1
    simp [jsOr, jsGetD, h1]
  · show jsGetD (jsOr (some ((jsSplitComma s).headD "")) r)
      "127.0.0.1" = (jsSplitComma s).headD ""
    revert h2
    generalize (jsSplitComma s).headD "" = t
    intro h2
    simp [jsOr, jsGetD, h2]

/-- C6 witness: the chain `" 1.2.3.4 , 5.6.7.8"`; the main variant yields
the trimmed first hop, part_001 the raw one. -/
theorem c6_first_entry_witness :
    RootTsx.resolveRequestIp ⟨none, some " 1.2.3.4 , 5.6.7.8", none⟩ =
        jsTrim ((jsSplitComma " 1.2.3.4 , 5.6.7.8").headD "") ∧
      Part001.resolveRequestIp ⟨none, some " 1.2.3.4 , 5.6.7.8", none⟩ =
        (jsSplitComma " 1.2.3.4 , 5.6.7.8").headD "" :=
  c6_first_entry " 1.2.3.4 , 5.6.7.8" none none (by decide) (by decide)

/-- C7 confirmed: when all three headers are absent or empty, both the
src/app/root.tsx and the part_000 resolution return the fixed loopback
fallback `127.0.0.1`; resolution is a total function of the headers, so no
input can make it error. -/
theorem c7_fallback (cf xf r : Option String)
    (h1 : cf = none ∨ cf = some "") (h2 : xf = none ∨ xf = some "")
    (h3 : r = none ∨ r = some "") :
    RootTsx.resolveRequestIp ⟨cf, xf, r⟩ = "127.0.0.1" ∧
      Part000.resolveRequestIp ⟨cf, xf, r⟩ = "127.0.0.1" := by
  rcases h1 with rfl | rfl <;> rcases h2 with rfl | rfl <;>
    rcases h3 with rfl | rfl <;> exact ⟨by decide, by decide⟩

/-- C7 witness: the fully headerless request. -/
theorem c7_fallback_witness :
    RootTsx.resolveRequestIp ⟨none, none, none⟩ = "127.0.0.1" ∧
      Part000.resolveRequestIp ⟨none, none, none⟩ = "127.0.0.1" :=
  c7_fallback none none none (Or.inl rfl) (Or.inl rfl) (Or.inl rfl)

/-- C8 counterexample: a headerless request with no allow-list configured
is allowed by the part_001 loader, yet its success payload is `{ ok: true }`
without the resolved address, refuting the claim that the allow outcome
carries `ip`. -/
theorem c8_counterexample :
    (Part001.loader ⟨none, none, none⟩ none).isAllowed = true ∧
      Part001.loader ⟨none, none, none⟩ none ≠
        LoaderResult.ok (some (Part001.resolveRequestIp ⟨none, none, none⟩)) := by
  decide

/-- C8 amended: on every allowed request, the src/app/root.tsx loader
returns exactly `{ ok: true, ip: <resolved address> }` with the address the
resolution algorithm produced, while the part_001 loader returns
`{ ok: true }` with no address field. -/
theorem c8_payload (h h2 : Headers) (env env2 : Option String)
    (ha : (RootTsx.loader h env).isAllowed = true)
    (hb : (Part001.loader h2 env2).isAllowed = true) :
    RootTsx.loader h env = .ok (some (RootTsx.resolveRequestIp h)) ∧
      Part001.loader h2 env2 = .ok none := by
  constructor
  · cases hc : (truthy env &&
        !(RootTsx.isAllowedIp (RootTsx.resolveRequestIp h) (env.getD ""))) with
    | true => simp [RootTsx.loader, hc, LoaderResult.isAllowed] at ha
    | false => simp [RootTsx.loader, hc]
  · by_cases hc : Part001.resolveRequestIp h2 ≠ jsGetD env2 "127.0.0.1" ∧
        Part001.resolveRequestIp h2 ≠ "127.0.0.1"
    · simp [Part001.loader, hc, LoaderResult.isAllowed] at hb
    · simp [Part001.loader, hc]

/-- C8 witness: the amended statement at a request resolving through
`cf-connecting-ip` against a matching allow-list value. -/
theorem c8_payload_witness :
    RootTsx.loader ⟨some "89.76.169.41", none, none⟩ (some "89.76.169.41") =
      .ok (some (RootTsx.resolveRequestIp ⟨some "89.76.169.41", none, none⟩)) ∧
    Part001.loader ⟨none, none, none⟩ none = .ok none :=
  c8_payload ⟨some "89.76.169.41", none, none⟩ ⟨none, none, none⟩
    (some "89.76.169.41") none (by decide) (by decide)

/-- C9 confirmed: the decision is a pure, stateless function of the
resolved client address and the configured allow-list value: any two header
maps resolving to the same address produce identical loader outcomes under
the same configuration, in both the src/app/root.tsx and the part_000
variant (identical inputs are the special case of equal header maps). -/
theorem c9_pure (h1 h2 h3 h4 : Headers) (env : Option String)
    (e1 : RootTsx.resolveRequestIp h1 = RootTsx.resolveRequestIp h2)
    (e2 : Part000.resolveRequestIp h3 = Part000.resolveRequestIp h4) :
    RootTsx.loader h1 env = RootTsx.loader h2 env ∧
      Part000.loader h3 = Part000.loader h4 := by
  constructor
  · simp only [RootTsx.loader]
    rw [e1]
  · simp only [Part000.loader]
    rw [e2]

/-- C9 witness: two distinct header maps that resolve to the same address
(edge header versus forwarded-for header) yield the same outcome. -/
theorem c9_pure_witness :
    RootTsx.loader ⟨some "9.9.9.9", some "2.2.2.2", none⟩ (some "9.9.9.9") =
      RootTsx.loader ⟨none, some "9.9.9.9", none⟩ (some "9.9.9.9") ∧
    Part000.loader ⟨some "9.9.9.9", some "2.2.2.2", none⟩ =
      Part000.loader ⟨none, some "9.9.9.9", none⟩ :=
  c9_pure ⟨some "9.9.9.9", some "2.2.2.2", none⟩ ⟨none, some "9.9.9.9", none⟩
    ⟨some "9.9.9.9", some "2.2.2.2", none⟩ ⟨none, some "9.9.9.9", none⟩
    (some "9.9.9.9") (by decide) (by decide)

/-- C10 confirmed: in the main variant src/app/root.tsx, whatever
allow-list value is configured, a request whose resolved address is the
literal string `localhost` is allowed unconditionally — an extra bypass
value beyond the loopback address, reachable through a spoofable
forwarded header. -/
theorem c10_localhost_bypass (h : Headers) (a : String)
    (hres : RootTsx.resolveRequestIp h = "localhost") :
    (RootTsx.loader h (some a)).isAllowed = true := by
  simp [RootTsx.loader, hres, RootTsx.isAllowedIp, LoaderResult.isAllowed]

/-- C10 witness: a client-supplied `x-forwarded-for: localhost` against
allow-list value `89.76.169.41` is allowed. -/
theorem c10_localhost_bypass_witness :
    (RootTsx.loader ⟨none, some "localhost", none⟩
      (some "89.76.169.41")).isAllowed = true :=
  c10_localhost_bypass ⟨none, some "localhost", none⟩ "89.76.169.41" (by decide)
